import Mathlib

/-!
# Verification of the aliyun-live-go-sdk live controller

A shallow embedding of the SDK's live-streaming controller
(`src/aliyun/response.go`: `ErrorResponse`, the `Live` controller and its
methods) together with the parts of the repository the controller uses that
are declared elsewhere in the repo (the `Request` builder, the stream
URL signer, the rpc client); those parts are modelled from the
specification, as marked in their doc comments.

Go pointer aliasing is made explicit with a small heap: requests and stream
credentials live in address-indexed heaps, and cloning allocates a fresh
cell, so independence of a clone from its original is a real statement
about addresses rather than a triviality of pure values.
-/

namespace AliyunLive

/-! ## ErrorResponse (src/aliyun/response.go) -/

/-- `ErrorResponse` from src/aliyun/response.go. The Go `int` status code is
modelled as `Int`. -/
structure ErrorResponse where
  RequestId : String
  Recommend : String
  HostId : String
  Code : String
  Message : String
  StatusCode : Int
deriving Inhabited, DecidableEq

/-- `(e *ErrorResponse) Error()` from src/aliyun/response.go:
`fmt.Sprintf("Aliyun API Error:\n RequestId: %s\n Status Code: %d\n Code: %s\n Message: %s\n", ...)`. -/
def ErrorResponse.Error (e : ErrorResponse) : String :=
  "Aliyun API Error:\n RequestId: " ++ e.RequestId ++
    "\n Status Code: " ++ toString e.StatusCode ++
    "\n Code: " ++ e.Code ++
    "\n Message: " ++ e.Message ++ "\n"

/-- `p` occurs verbatim as a substring of `s`. -/
def Substr (p s : String) : Prop :=
  ∃ a b : String, s = a ++ p ++ b

/-! ## The request builder

The `Request` type lives in the repository's `live` package (request file),
which is not under src/; only its call sites in src/aliyun/response.go are
visible. It is modelled from the spec. -/

/-- Modelled from the spec: the `Request` of the live package (not under
src/). "Request: action name (string), default domain name, default app
name, mutable key-value argument bag." -/
structure Request where
  Action : String
  DomainName : String
  AppName : String
  args : List (String × String)
deriving Inhabited, DecidableEq

/-- Modelled from the spec: argument-bag update used by `SetArgs`.
"`SetArgs(key, value)` stores a parameter, overwriting any existing value
for that key." -/
def setArg : List (String × String) → String → String → List (String × String)
  | [], k, v => [(k, v)]
  | (k0, v0) :: rest, k, v =>
    if k0 = k then (k, v) :: rest else (k0, v0) :: setArg rest k v

/-- Modelled from the spec: `Request.SetArgs` (not under src/). -/
def Request.SetArgs (r : Request) (k v : String) : Request :=
  { r with args := setArg r.args k v }

/-! ## A heap of Go pointers

Go values reached through pointers are modelled as cells of an
address-indexed heap; `alloc` returns a fresh address. -/

/-- A heap of mutable cells; addresses are list indices. -/
abbrev Heap (α : Type) : Type := List α

/-- Number of allocated cells. -/
def Heap.size (h : Heap α) : Nat := List.length h

/-- Read the cell at address `a`. -/
def Heap.get [Inhabited α] (h : Heap α) (a : Nat) : α :=
  (h[a]?).getD default

/-- Overwrite the cell at address `a`. -/
def Heap.put (h : Heap α) (a : Nat) (x : α) : Heap α :=
  List.set h a x

/-- Allocate a fresh cell holding `x`; returns the new heap and the fresh
address. -/
def Heap.alloc (h : Heap α) (x : α) : Heap α × Nat :=
  (h ++ [x], Heap.size h)

/-- Modelled from the spec: `Request.Clone` (not under src/). "`Clone()`
returns a deep copy (independent argument bag)": a fresh heap cell is
allocated holding a copy of the request at `a`. -/
def Request.CloneAt (h : Heap Request) (a : Nat) : Heap Request × Nat :=
  Heap.alloc h (Heap.get h a)

/-- `req.SetArgs(k, v)` performed on the heap cell at address `a`. -/
def Heap.setArgsAt (h : Heap Request) (a : Nat) (k v : String) : Heap Request :=
  Heap.put h a ((Heap.get h a).SetArgs k v)

/-- `req.AppName = appName` performed on the heap cell at address `a`. -/
def Heap.setAppNameAt (h : Heap Request) (a : Nat) (appName : String) : Heap Request :=
  Heap.put h a { Heap.get h a with AppName := appName }

/-! ## Heap lemmas -/

theorem Heap.get_put_self [Inhabited α] (h : Heap α) (a : Nat) (x : α)
    (ha : a < Heap.size h) : Heap.get (Heap.put h a x) a = x := by
  simp [Heap.get, Heap.put, List.getElem?_set_self (by simpa [Heap.size] using ha)]

theorem Heap.get_put_ne [Inhabited α] (h : Heap α) (a b : Nat) (x : α)
    (hab : a ≠ b) : Heap.get (Heap.put h a x) b = Heap.get h b := by
  simp [Heap.get, Heap.put, List.getElem?_set_ne hab]

theorem Heap.get_alloc_old [Inhabited α] (h : Heap α) (x : α) (b : Nat)
    (hb : b < Heap.size h) : Heap.get (Heap.alloc h x).1 b = Heap.get h b := by
  simp [Heap.get, Heap.alloc, List.getElem?_append_left (by simpa [Heap.size] using hb)]

theorem Heap.get_alloc_new [Inhabited α] (h : Heap α) (x : α) :
    Heap.get (Heap.alloc h x).1 (Heap.alloc h x).2 = x := by
  simp [Heap.get, Heap.alloc, Heap.size, List.getElem?_concat_length]

theorem Heap.alloc_fresh (h : Heap α) (x : α) (b : Nat) (hb : b < Heap.size h) :
    (Heap.alloc h x).2 ≠ b := by
  simp only [Heap.alloc]
  omega

theorem Heap.size_put (h : Heap α) (a : Nat) (x : α) :
    Heap.size (Heap.put h a x) = Heap.size h := by
  simp [Heap.size, Heap.put]

/-! ## Stream credentials -/

/-- Modelled from the spec: `StreamCredentials` of the live package (not
under src/). "StreamCredentials: signing key, expiry policy." -/
structure StreamCredentials where
  PrivateKey : String
  Timeout : Nat
deriving Inhabited, DecidableEq

/-- Modelled from the spec: `StreamCredentials.Clone` (not under src/).
"optional clone semantics (value, not reference, to avoid aliasing across
streams)": a field-by-field copy. -/
def StreamCredentials.Clone (c : StreamCredentials) : StreamCredentials :=
  { PrivateKey := c.PrivateKey, Timeout := c.Timeout }

/-! ## The Live controller

`Live` from src/aliyun/response.go. The Go struct holds a pointer
`liveReq *Request` into the request heap and an optional pointer
`streamCert *StreamCredentials` into the credentials heap; `rpc` is kept
outside the state and modelled as a query oracle passed to each method. -/

/-- The `Live` controller state (src/aliyun/response.go), with the heaps
holding the pointed-to `Request` and `StreamCredentials` cells. -/
structure LiveState where
  reqHeap : Heap Request
  liveReqAddr : Nat
  certHeap : Heap StreamCredentials
  streamCert : Option Nat
  videoCenterDns : String
deriving Inhabited, DecidableEq

/-- Modelled from the spec: the default video-center domain constant of the
live package (not under src/). -/
def DefaultVideoCenter : String := "video-center.alivecdn.com"

/-- Modelled from the spec: the action-name constants of the live package
(not under src/); distinct vendor-defined operation names. -/
def DescribeLiveStreamsPublishListAction : String := "DescribeLiveStreamsPublishList"

/-- Modelled from the spec (see `DescribeLiveStreamsPublishListAction`). -/
def DescribeLiveStreamsOnlineListAction : String := "DescribeLiveStreamsOnlineList"

/-- Modelled from the spec (see `DescribeLiveStreamsPublishListAction`). -/
def DescribeLiveStreamsBlockListAction : String := "DescribeLiveStreamsBlockList"

/-- Modelled from the spec (see `DescribeLiveStreamsPublishListAction`). -/
def DescribeLiveStreamsControlHistoryAction : String := "DescribeLiveStreamsControlHistory"

/-- Modelled from the spec (see `DescribeLiveStreamsPublishListAction`). -/
def ForbidLiveStreamAction : String := "ForbidLiveStream"

/-- Modelled from the spec (see `DescribeLiveStreamsPublishListAction`). -/
def ResumeLiveStreamAction : String := "ResumeLiveStream"

/-- Modelled from the spec: `global.EmptyString` of the util package (not
under src/), the empty string compared against required arguments. -/
def EmptyString : String := ""

/-- Go `time.Time` values, abstracted to an instant tag; only identity of
instants matters to the claims. -/
abbrev GoTime : Type := Nat

/-- Modelled from the spec: `util.GetISO8601TimeStamp` (not under src/), a
deterministic rendering of an instant; the concrete format is irrelevant to
the claims. -/
def GetISO8601TimeStamp (t : GoTime) : String := toString t

/-- `NewLive` / `NewLiveWithCtx` from src/aliyun/response.go: the template
request is `NewLiveRequest("", domainName, appName)` and the video-center
DNS defaults to `DefaultVideoCenter`. -/
def NewLive (domainName appName : String) (streamCert : Option StreamCredentials) : LiveState :=
  { reqHeap := [{ Action := "", DomainName := domainName, AppName := appName, args := [] }]
    liveReqAddr := 0
    certHeap := match streamCert with | none => [] | some c => [c]
    streamCert := match streamCert with | none => none | some _ => some 0
    videoCenterDns := DefaultVideoCenter }

/-- The template request `l.liveReq` the controller points at. -/
def LiveState.template (s : LiveState) : Request :=
  Heap.get s.reqHeap s.liveReqAddr

/-- `l.GetAppName()` from src/aliyun/response.go. -/
def LiveState.GetAppName (s : LiveState) : String :=
  s.template.AppName

/-- `l.GetDomainName()` from src/aliyun/response.go. -/
def LiveState.GetDomainName (s : LiveState) : String :=
  s.template.DomainName

/-- `l.SetAction(action)` from src/aliyun/response.go: mutates the `Action`
field of the shared template request in place. -/
def LiveState.SetAction (s : LiveState) (action : String) : LiveState :=
  { s with reqHeap := Heap.put s.reqHeap s.liveReqAddr { s.template with Action := action } }

/-- `l.cloneRequest(action)` from src/aliyun/response.go:
`l.SetAction(action).liveReq.Clone().(*Request)`. Returns the state after
the mutation and allocation, and the clone's address. -/
def LiveState.cloneRequest (s : LiveState) (action : String) : LiveState × Nat :=
  let s1 := s.SetAction action
  let ha := Request.CloneAt s1.reqHeap s1.liveReqAddr
  ({ s1 with reqHeap := ha.1 }, ha.2)

/-- The observable outcome of one controller method call: the state after
the call, the requests handed to `rpc.Query` in order, and the returned
error (`none` is Go's nil error). -/
structure CallResult where
  state : LiveState
  queries : List Request
  err : Option String
deriving Inhabited

/-- The query oracle standing for `l.rpc.Query(req, resp)`: the transport
and vendor behaviour, mapping the sent request to the returned error. -/
abbrev QueryOracle : Type := Request → Option String

/-- `l.StreamsPublishList(startTime, endTime, resp)` from
src/aliyun/response.go. -/
def LiveState.StreamsPublishList (s : LiveState) (q : QueryOracle)
    (startTime endTime : GoTime) : CallResult :=
  let ra := s.cloneRequest DescribeLiveStreamsPublishListAction
  let h1 := Heap.setArgsAt ra.1.reqHeap ra.2 "StartTime" (GetISO8601TimeStamp startTime)
  let h2 := Heap.setArgsAt h1 ra.2 "EndTime" (GetISO8601TimeStamp endTime)
  let req := Heap.get h2 ra.2
  { state := { ra.1 with reqHeap := h2 }, queries := [req], err := q req }

/-- `l.StreamsOnlineList(resp)` from src/aliyun/response.go. -/
def LiveState.StreamsOnlineList (s : LiveState) (q : QueryOracle) : CallResult :=
  let ra := s.cloneRequest DescribeLiveStreamsOnlineListAction
  let req := Heap.get ra.1.reqHeap ra.2
  { state := ra.1, queries := [req], err := q req }

/-- `l.StreamsBlockList(resp)` from src/aliyun/response.go: clones with the
block-list action, blanks `req.AppName` on the clone, then queries. -/
def LiveState.StreamsBlockList (s : LiveState) (q : QueryOracle) : CallResult :=
  let ra := s.cloneRequest DescribeLiveStreamsBlockListAction
  let h1 := Heap.setAppNameAt ra.1.reqHeap ra.2 ""
  let req := Heap.get h1 ra.2
  { state := { ra.1 with reqHeap := h1 }, queries := [req], err := q req }

/-- `l.StreamsControlHistory(startTime, endTime, resp)` from
src/aliyun/response.go. -/
def LiveState.StreamsControlHistory (s : LiveState) (q : QueryOracle)
    (startTime endTime : GoTime) : CallResult :=
  let ra := s.cloneRequest DescribeLiveStreamsControlHistoryAction
  let h1 := Heap.setArgsAt ra.1.reqHeap ra.2 "StartTime" (GetISO8601TimeStamp startTime)
  let h2 := Heap.setArgsAt h1 ra.2 "EndTime" (GetISO8601TimeStamp endTime)
  let req := Heap.get h2 ra.2
  { state := { ra.1 with reqHeap := h2 }, queries := [req], err := q req }

/-- `l.ForbidLiveStream(appName, streamName, liveStreamType, resumeTime,
resp)` from src/aliyun/response.go: empty `appName` fails validation before
any network call; otherwise the clone is mutated and queried. -/
def LiveState.ForbidLiveStream (s : LiveState) (q : QueryOracle)
    (appName streamName liveStreamType : String) (resumeTime : Option GoTime) : CallResult :=
  if EmptyString = appName then
    { state := s, queries := [], err := some "appName should not to be empty" }
  else
    let ra := s.cloneRequest ForbidLiveStreamAction
    let h1 := Heap.setAppNameAt ra.1.reqHeap ra.2 appName
    let h2 := Heap.setArgsAt h1 ra.2 "StreamName" streamName
    let h3 := Heap.setArgsAt h2 ra.2 "LiveStreamType" liveStreamType
    let h4 := match resumeTime with
      | none => h3
      | some t => Heap.setArgsAt h3 ra.2 "ResumeTime" (GetISO8601TimeStamp t)
    let req := Heap.get h4 ra.2
    { state := { ra.1 with reqHeap := h4 }, queries := [req], err := q req }

/-- `l.ForbidLiveStreamWithPublisher(streamName, resumeTime, resp)` from
src/aliyun/response.go: forwards `l.liveReq.AppName` as the appName. -/
def LiveState.ForbidLiveStreamWithPublisher (s : LiveState) (q : QueryOracle)
    (streamName : String) (resumeTime : Option GoTime) : CallResult :=
  s.ForbidLiveStream q s.template.AppName streamName "publisher" resumeTime

/-- `l.ResumeLiveStream(appName, streamName, liveStreamType, resp)` from
src/aliyun/response.go. -/
def LiveState.ResumeLiveStream (s : LiveState) (q : QueryOracle)
    (appName streamName liveStreamType : String) : CallResult :=
  if EmptyString = appName then
    { state := s, queries := [], err := some "appName should not to be empty" }
  else
    let ra := s.cloneRequest ResumeLiveStreamAction
    let h1 := Heap.setAppNameAt ra.1.reqHeap ra.2 appName
    let h2 := Heap.setArgsAt h1 ra.2 "StreamName" streamName
    let h3 := Heap.setArgsAt h2 ra.2 "LiveStreamType" liveStreamType
    let req := Heap.get h3 ra.2
    { state := { ra.1 with reqHeap := h3 }, queries := [req], err := q req }

/-- `l.ResumeLiveStreamWithPublisher(streamName, resp)` from
src/aliyun/response.go: forwards `l.liveReq.AppName` as the appName. -/
def LiveState.ResumeLiveStreamWithPublisher (s : LiveState) (q : QueryOracle)
    (streamName : String) : CallResult :=
  s.ResumeLiveStream q s.template.AppName streamName "publisher"

/-! ## Streams (GetStream, src/aliyun/response.go) -/

/-- The `Stream` value built by `GetStream`; `streamCert` is an optional
pointer into the credentials heap. -/
structure Stream where
  domainName : String
  appName : String
  StreamName : String
  videoCenterDns : String
  streamCert : Option Nat
  signOn : Bool
deriving Inhabited, DecidableEq

/-- `l.GetStream(streamName)` from src/aliyun/response.go: nil for an empty
stream name; otherwise a fresh `Stream` whose credentials are a clone of
the controller's (when present) and whose `signOn` records whether the
controller has credentials. Returns the state (the credentials heap may
have grown by the clone) and the optional stream. -/
def LiveState.GetStream (s : LiveState) (streamName : String) : LiveState × Option Stream :=
  if streamName = "" then (s, none)
  else
    match s.streamCert with
    | none =>
      (s, some { domainName := s.template.DomainName, appName := s.template.AppName,
                 StreamName := streamName, videoCenterDns := s.videoCenterDns,
                 streamCert := none, signOn := false })
    | some a =>
      let hb := Heap.alloc s.certHeap (Heap.get s.certHeap a).Clone
      ({ s with certHeap := hb.1 },
       some { domainName := s.template.DomainName, appName := s.template.AppName,
              StreamName := streamName, videoCenterDns := s.videoCenterDns,
              streamCert := some hb.2, signOn := true })

/-! ## Stream URL generation

The stream URL signer lives in the repository's `live` package (stream
file), not under src/; it is modelled from the spec: URLs have the form
`rtmp://<domain>/<appName>/<streamName>?vhost=<cdn>[&auth_key=...]`, and
the auth key is "derived from a hash over domain path, expiry, and secret
(vendor-specified algorithm)" — the vendor format being
`<expiry>-<rand>-<uid>-<hash(uri-expiry-rand-uid-secret)>` with rand and
uid fixed to `0`. -/

/-- Decimal digits of `n`, least significant first, computed with `fuel`
recursion budget (`fuel ≥ n` suffices). -/
def natReprAux : Nat → Nat → List Char
  | 0, _ => []
  | fuel + 1, n =>
    if n = 0 then [] else Nat.digitChar (n % 10) :: natReprAux fuel (n / 10)

/-- Decimal rendering of a natural number. -/
def natRepr (n : Nat) : String :=
  if n = 0 then "0" else String.mk (natReprAux n n).reverse

/-- Numeric value of a decimal digit character. -/
def charDigitVal (c : Char) : Nat := c.toNat - 48

/-- Value of a least-significant-first digit string. -/
def digitsVal : List Char → Nat
  | [] => 0
  | c :: rest => charDigitVal c + 10 * digitsVal rest

/-- Modelled from the spec: the "hash over domain path, expiry, and secret"
of the vendor algorithm (md5 in the vendor's description), modelled as a
concrete deterministic string hash. -/
def hashString (s : String) : Nat :=
  List.foldl (fun h c => (h * 131 + c.toNat) % 4294967296) 7 s.data

/-- Modelled from the spec: the auth-key query-parameter value, in the
vendor format `<expiry>-0-0-<hash(uri-expiry-0-0-secret)>`. -/
def authKey (uri : String) (expiry : Nat) (privateKey : String) : String :=
  natRepr expiry ++ "-0-0-" ++
    natRepr (hashString (uri ++ "-" ++ natRepr expiry ++ "-0-0-" ++ privateKey))

/-- Modelled from the spec: the query parameters of a generated stream URL;
`vhost` always, `auth_key` exactly when signing credentials are present. -/
def streamUrlParams (cdn appName streamName : String)
    (cert : Option StreamCredentials) (expiry : Nat) : List (String × String) :=
  match cert with
  | none => [("vhost", cdn)]
  | some c =>
    [("vhost", cdn),
     ("auth_key", authKey ("/" ++ appName ++ "/" ++ streamName) expiry c.PrivateKey)]

/-- Render a query-parameter list as `k1=v1&k2=v2&...`. -/
def renderQuery : List (String × String) → String
  | [] => ""
  | [kv] => kv.1 ++ "=" ++ kv.2
  | kv :: rest => kv.1 ++ "=" ++ kv.2 ++ "&" ++ renderQuery rest

/-- Modelled from the spec: the generated publish/playback URL
`rtmp://<domain>/<appName>/<streamName>?<query>`. -/
def rtmpUrl (domain appName streamName cdn : String)
    (cert : Option StreamCredentials) (expiry : Nat) : String :=
  "rtmp://" ++ domain ++ "/" ++ appName ++ "/" ++ streamName ++ "?" ++
    renderQuery (streamUrlParams cdn appName streamName cert expiry)

/-! ## Decimal rendering lemmas -/

theorem charDigitVal_digitChar :
    ∀ d : Fin 10, charDigitVal (Nat.digitChar d.val) = d.val := by
  decide

theorem digitChar_ne_dash : ∀ d : Fin 10, Nat.digitChar d.val ≠ '-' := by
  decide

theorem digitsVal_natReprAux :
    ∀ fuel n, n ≤ fuel → digitsVal (natReprAux fuel n) = n := by
  intro fuel
  induction fuel with
  | zero =>
    intro n hn
    have h0 : n = 0 := Nat.le_zero.mp hn
    subst h0
    simp [natReprAux, digitsVal]
  | succ f ih =>
    intro n hn
    by_cases h0 : n = 0
    · subst h0
      simp [natReprAux, digitsVal]
    · have hlt : n / 10 ≤ f := by
        have hdlt : n / 10 < n := Nat.div_lt_self (Nat.pos_of_ne_zero h0) (by omega)
        omega
      have hd : charDigitVal (Nat.digitChar (n % 10)) = n % 10 :=
        charDigitVal_digitChar ⟨n % 10, Nat.mod_lt _ (by omega)⟩
      simp [natReprAux, h0, digitsVal, ih _ hlt, hd]
      omega

theorem natReprAux_ne_dash :
    ∀ fuel n c, c ∈ natReprAux fuel n → c ≠ '-' := by
  intro fuel
  induction fuel with
  | zero =>
    intro n c hc
    simp [natReprAux] at hc
  | succ f ih =>
    intro n c hc
    by_cases h0 : n = 0
    · subst h0
      simp [natReprAux] at hc
    · simp only [natReprAux, h0, if_false, List.mem_cons] at hc
      rcases hc with hc | hc
      · subst hc
        exact digitChar_ne_dash ⟨n % 10, Nat.mod_lt _ (by omega)⟩
      · exact ih _ _ hc

theorem natRepr_inj {m n : Nat} (h : natRepr m = natRepr n) : m = n := by
  have hdata : (natRepr m).data = (natRepr n).data := by rw [h]
  by_cases hm : m = 0 <;> by_cases hn : n = 0
  · omega
  · exfalso
    rw [natRepr, natRepr, if_pos hm, if_neg hn] at hdata
    have hrev : (natReprAux n n).reverse = ['0'] := by
      simpa using hdata.symm
    have hlist : natReprAux n n = ['0'] := by
      have := congrArg List.reverse hrev
      simpa using this
    have := digitsVal_natReprAux n n le_rfl
    rw [hlist] at this
    simp [digitsVal, charDigitVal] at this
    exact hn this.symm
  · exfalso
    rw [natRepr, natRepr, if_neg hm, if_pos hn] at hdata
    have hrev : (natReprAux m m).reverse = ['0'] := by
      simpa using hdata
    have hlist : natReprAux m m = ['0'] := by
      have := congrArg List.reverse hrev
      simpa using this
    have := digitsVal_natReprAux m m le_rfl
    rw [hlist] at this
    simp [digitsVal, charDigitVal] at this
    exact hm this.symm
  · rw [natRepr, natRepr, if_neg hm, if_neg hn] at hdata
    have hlist : natReprAux m m = natReprAux n n := by
      have := congrArg List.reverse (by simpa using hdata)
      simpa using this
    have h1 := digitsVal_natReprAux m m le_rfl
    have h2 := digitsVal_natReprAux n n le_rfl
    rw [hlist] at h1
    omega

theorem natRepr_ne_dash (n : Nat) (c : Char) (hc : c ∈ (natRepr n).data) :
    c ≠ '-' := by
  by_cases h0 : n = 0
  · subst h0
    simp [natRepr] at hc
    subst hc
    decide
  · rw [natRepr, if_neg h0] at hc
    have : c ∈ natReprAux n n := by
      simpa using hc
    exact natReprAux_ne_dash n n c this

theorem dashFree_append_inj :
    ∀ (l1 l2 m1 m2 : List Char),
      (∀ c ∈ l1, c ≠ '-') → (∀ c ∈ l2, c ≠ '-') →
      l1 ++ '-' :: m1 = l2 ++ '-' :: m2 → l1 = l2 := by
  intro l1
  induction l1 with
  | nil =>
    intro l2 m1 m2 _ h2 heq
    cases l2 with
    | nil => rfl
    | cons c t =>
      exfalso
      simp only [List.nil_append, List.cons_append, List.cons.injEq] at heq
      exact h2 c (by simp) heq.1.symm
  | cons c t ih =>
    intro l2 m1 m2 h1 h2 heq
    cases l2 with
    | nil =>
      exfalso
      simp only [List.nil_append, List.cons_append, List.cons.injEq] at heq
      exact h1 c (by simp) heq.1
    | cons c2 t2 =>
      simp only [List.cons_append, List.cons.injEq] at heq
      have ht := ih t2 m1 m2 (fun x hx => h1 x (by simp [hx]))
        (fun x hx => h2 x (by simp [hx])) heq.2
      rw [heq.1, ht]

theorem string_append_left_cancel {p a b : String} (h : p ++ a = p ++ b) :
    a = b := by
  apply String.ext
  have hd := congrArg String.data h
  simp only [String.data_append] at hd
  exact List.append_cancel_left hd

theorem authKey_expiry_inj (uri key : String) {e1 e2 : Nat}
    (h : authKey uri e1 key = authKey uri e2 key) : e1 = e2 := by
  have hdata := congrArg String.data h
  simp only [authKey, String.data_append] at hdata
  simp only [List.append_assoc, List.cons_append, List.nil_append] at hdata
  have hpre := dashFree_append_inj (natRepr e1).data (natRepr e2).data _ _
    (natRepr_ne_dash e1) (natRepr_ne_dash e2) hdata
  exact natRepr_inj (String.ext hpre)

/-! ## Concrete fixtures used by witnesses -/

/-- A sample request. -/
def sampleReq : Request :=
  { Action := "A", DomainName := "d", AppName := "a", args := [("x", "1")] }

/-- A one-cell request heap. -/
def sampleHeap : Heap Request := [sampleReq]

/-- A controller state whose heap holds the template (address 0) and one
prior clone (address 1). -/
def sampleLive2 : LiveState :=
  { reqHeap := [sampleReq, sampleReq], liveReqAddr := 0, certHeap := [],
    streamCert := none, videoCenterDns := "v" }

/-- Sample signing credentials. -/
def sampleCert : StreamCredentials := { PrivateKey := "secret", Timeout := 3600 }

/-! ## Claim theorems -/

/-- Claim C1: calling `ForbidLiveStream` or `ResumeLiveStream` with an empty
`appName` returns the validation error immediately, invokes `rpc.Query` on
nothing, and leaves the controller's state unchanged. -/
theorem forbid_resume_empty_appName_validation (q : QueryOracle) (s : LiveState)
    (streamName liveStreamType : String) (resumeTime : Option GoTime) :
    (s.ForbidLiveStream q "" streamName liveStreamType resumeTime).err =
        some "appName should not to be empty" ∧
      (s.ForbidLiveStream q "" streamName liveStreamType resumeTime).queries = [] ∧
      (s.ForbidLiveStream q "" streamName liveStreamType resumeTime).state = s ∧
      (s.ResumeLiveStream q "" streamName liveStreamType).err =
        some "appName should not to be empty" ∧
      (s.ResumeLiveStream q "" streamName liveStreamType).queries = [] ∧
      (s.ResumeLiveStream q "" streamName liveStreamType).state = s := by
  simp [LiveState.ForbidLiveStream, LiveState.ResumeLiveStream, EmptyString]

/-- Claim C2: `ErrorResponse.Error()` contains `RequestId`, the decimal
rendering of `StatusCode`, `Code`, and `Message` verbatim as substrings. -/
theorem errorResponse_error_contains (e : ErrorResponse) :
    Substr e.RequestId e.Error ∧ Substr (toString e.StatusCode) e.Error ∧
      Substr e.Code e.Error ∧ Substr e.Message e.Error := by
  refine ⟨⟨"Aliyun API Error:\n RequestId: ",
      "\n Status Code: " ++ toString e.StatusCode ++ "\n Code: " ++ e.Code ++
        "\n Message: " ++ e.Message ++ "\n", ?_⟩,
    ⟨"Aliyun API Error:\n RequestId: " ++ e.RequestId ++ "\n Status Code: ",
      "\n Code: " ++ e.Code ++ "\n Message: " ++ e.Message ++ "\n", ?_⟩,
    ⟨"Aliyun API Error:\n RequestId: " ++ e.RequestId ++ "\n Status Code: " ++
      toString e.StatusCode ++ "\n Code: ",
      "\n Message: " ++ e.Message ++ "\n", ?_⟩,
    ⟨"Aliyun API Error:\n RequestId: " ++ e.RequestId ++ "\n Status Code: " ++
      toString e.StatusCode ++ "\n Code: " ++ e.Code ++ "\n Message: ",
      "\n", ?_⟩⟩ <;>
  simp [ErrorResponse.Error, String.append_assoc]

/-- Claim C5: every controller method that passes validation hands exactly
one request to `rpc.Query` and returns `Query`'s error value unchanged
(nil when `Query` succeeds). -/
theorem methods_propagate_query_error (q : QueryOracle) (s : LiveState)
    (t1 t2 : GoTime) (appName streamName liveStreamType : String)
    (resumeTime : Option GoTime) (h : appName ≠ "") :
    (∃ req, (s.StreamsPublishList q t1 t2).queries = [req] ∧
      (s.StreamsPublishList q t1 t2).err = q req) ∧
    (∃ req, (s.StreamsOnlineList q).queries = [req] ∧
      (s.StreamsOnlineList q).err = q req) ∧
    (∃ req, (s.StreamsBlockList q).queries = [req] ∧
      (s.StreamsBlockList q).err = q req) ∧
    (∃ req, (s.StreamsControlHistory q t1 t2).queries = [req] ∧
      (s.StreamsControlHistory q t1 t2).err = q req) ∧
    (∃ req, (s.ForbidLiveStream q appName streamName liveStreamType resumeTime).queries = [req] ∧
      (s.ForbidLiveStream q appName streamName liveStreamType resumeTime).err = q req) ∧
    (∃ req, (s.ResumeLiveStream q appName streamName liveStreamType).queries = [req] ∧
      (s.ResumeLiveStream q appName streamName liveStreamType).err = q req) := by
  have hne : ¬ (EmptyString = appName) := fun hh => h (hh.symm.trans rfl)
  refine ⟨⟨_, rfl, rfl⟩, ⟨_, rfl, rfl⟩, ⟨_, rfl, rfl⟩, ⟨_, rfl, rfl⟩, ?_, ?_⟩
  · rw [LiveState.ForbidLiveStream, if_neg hne]
    exact ⟨_, rfl, rfl⟩
  · rw [LiveState.ResumeLiveStream, if_neg hne]
    exact ⟨_, rfl, rfl⟩

/-- Witness for C5 at a concrete controller, oracle and arguments. -/
theorem methods_propagate_query_error_witness :
    ("app" : String) ≠ "" ∧
    ((∃ req, ((NewLive "d" "a" none).StreamsPublishList (fun _ => none) 0 1).queries = [req] ∧
      ((NewLive "d" "a" none).StreamsPublishList (fun _ => none) 0 1).err = (fun _ => none) req) ∧
    (∃ req, ((NewLive "d" "a" none).StreamsOnlineList (fun _ => none)).queries = [req] ∧
      ((NewLive "d" "a" none).StreamsOnlineList (fun _ => none)).err = (fun _ => none) req) ∧
    (∃ req, ((NewLive "d" "a" none).StreamsBlockList (fun _ => none)).queries = [req] ∧
      ((NewLive "d" "a" none).StreamsBlockList (fun _ => none)).err = (fun _ => none) req) ∧
    (∃ req, ((NewLive "d" "a" none).StreamsControlHistory (fun _ => none) 0 1).queries = [req] ∧
      ((NewLive "d" "a" none).StreamsControlHistory (fun _ => none) 0 1).err = (fun _ => none) req) ∧
    (∃ req, ((NewLive "d" "a" none).ForbidLiveStream (fun _ => none) "app" "st" "publisher" none).queries = [req] ∧
      ((NewLive "d" "a" none).ForbidLiveStream (fun _ => none) "app" "st" "publisher" none).err = (fun _ => none) req) ∧
    (∃ req, ((NewLive "d" "a" none).ResumeLiveStream (fun _ => none) "app" "st" "publisher").queries = [req] ∧
      ((NewLive "d" "a" none).ResumeLiveStream (fun _ => none) "app" "st" "publisher").err = (fun _ => none) req)) :=
  ⟨by decide,
   methods_propagate_query_error (fun _ => none) (NewLive "d" "a" none) 0 1
     "app" "st" "publisher" none (by decide)⟩

/-- Claim C10: when the controller's default app name is empty,
`ForbidLiveStreamWithPublisher` and `ResumeLiveStreamWithPublisher` return
the appName validation error with no network call and unchanged state. -/
theorem withPublisher_empty_default_appName (q : QueryOracle) (s : LiveState)
    (streamName : String) (resumeTime : Option GoTime)
    (h : s.GetAppName = "") :
    (s.ForbidLiveStreamWithPublisher q streamName resumeTime).err =
        some "appName should not to be empty" ∧
      (s.ForbidLiveStreamWithPublisher q streamName resumeTime).queries = [] ∧
      (s.ForbidLiveStreamWithPublisher q streamName resumeTime).state = s ∧
      (s.ResumeLiveStreamWithPublisher q streamName).err =
        some "appName should not to be empty" ∧
      (s.ResumeLiveStreamWithPublisher q streamName).queries = [] ∧
      (s.ResumeLiveStreamWithPublisher q streamName).state = s := by
  have ht : s.template.AppName = "" := h
  simp [LiveState.ForbidLiveStreamWithPublisher, LiveState.ResumeLiveStreamWithPublisher,
    LiveState.ForbidLiveStream, LiveState.ResumeLiveStream, EmptyString, ht]

/-- Witness for C10 at a controller whose default app name is empty. -/
theorem withPublisher_empty_default_appName_witness :
    (NewLive "d" "" none).GetAppName = "" ∧
    (((NewLive "d" "" none).ForbidLiveStreamWithPublisher (fun _ => none) "st" none).err =
        some "appName should not to be empty" ∧
      ((NewLive "d" "" none).ForbidLiveStreamWithPublisher (fun _ => none) "st" none).queries = [] ∧
      ((NewLive "d" "" none).ForbidLiveStreamWithPublisher (fun _ => none) "st" none).state =
        NewLive "d" "" none ∧
      ((NewLive "d" "" none).ResumeLiveStreamWithPublisher (fun _ => none) "st").err =
        some "appName should not to be empty" ∧
      ((NewLive "d" "" none).ResumeLiveStreamWithPublisher (fun _ => none) "st").queries = [] ∧
      ((NewLive "d" "" none).ResumeLiveStreamWithPublisher (fun _ => none) "st").state =
        NewLive "d" "" none) :=
  ⟨by decide,
   withPublisher_empty_default_appName (fun _ => none) (NewLive "d" "" none) "st" none (by decide)⟩

/-- Claim C3: a clone obtained from `Clone()` has an independent argument
bag: `SetArgs` on the clone updates the clone's cell and leaves the
original request's cell exactly as it was. -/
theorem clone_setArgs_independent (h : Heap Request) (r : Nat) (k v : String)
    (hr : r < Heap.size h) :
    Heap.get (Heap.setArgsAt (Request.CloneAt h r).1 (Request.CloneAt h r).2 k v) r =
        Heap.get h r ∧
      Heap.get (Heap.setArgsAt (Request.CloneAt h r).1 (Request.CloneAt h r).2 k v)
        (Request.CloneAt h r).2 = (Heap.get h r).SetArgs k v := by
  have hfresh : (Request.CloneAt h r).2 ≠ r := Heap.alloc_fresh h _ r hr
  constructor
  · rw [Heap.setArgsAt, Heap.get_put_ne _ _ _ _ hfresh]
    exact Heap.get_alloc_old h _ r hr
  · have hsz : (Request.CloneAt h r).2 < Heap.size (Request.CloneAt h r).1 := by
      simp [Request.CloneAt, Heap.alloc, Heap.size]
    rw [Heap.setArgsAt, Heap.get_put_self _ _ _ hsz, Request.CloneAt, Heap.get_alloc_new]

/-- Witness for C3 on a one-cell heap. -/
theorem clone_setArgs_independent_witness :
    (0 : Nat) < Heap.size sampleHeap ∧
    (Heap.get (Heap.setArgsAt (Request.CloneAt sampleHeap 0).1
          (Request.CloneAt sampleHeap 0).2 "k" "v") 0 = Heap.get sampleHeap 0 ∧
      Heap.get (Heap.setArgsAt (Request.CloneAt sampleHeap 0).1
          (Request.CloneAt sampleHeap 0).2 "k" "v") (Request.CloneAt sampleHeap 0).2 =
        (Heap.get sampleHeap 0).SetArgs "k" "v") :=
  ⟨by decide, clone_setArgs_independent sampleHeap 0 "k" "v" (by decide)⟩

/-- Claim C4: `SetAction` changes only the `Action` field of the shared
template request: prior clones (cells other than the template's) are
untouched, and a clone taken after the call carries the new action. -/
theorem setAction_affects_only_template (s : LiveState) (a : String) (b : Nat)
    (_hb : b < Heap.size s.reqHeap) (hbne : b ≠ s.liveReqAddr)
    (haddr : s.liveReqAddr < Heap.size s.reqHeap) :
    Heap.get (s.SetAction a).reqHeap b = Heap.get s.reqHeap b ∧
      (s.SetAction a).template = { s.template with Action := a } ∧
      Heap.get (Request.CloneAt (s.SetAction a).reqHeap (s.SetAction a).liveReqAddr).1
          (Request.CloneAt (s.SetAction a).reqHeap (s.SetAction a).liveReqAddr).2 =
        { s.template with Action := a } ∧
      (s.SetAction a).liveReqAddr = s.liveReqAddr ∧
      (s.SetAction a).certHeap = s.certHeap ∧
      (s.SetAction a).streamCert = s.streamCert ∧
      (s.SetAction a).videoCenterDns = s.videoCenterDns := by
  have h1 : Heap.get (s.SetAction a).reqHeap b = Heap.get s.reqHeap b := by
    rw [LiveState.SetAction]
    exact Heap.get_put_ne _ _ _ _ (fun hh => hbne hh.symm)
  have h2 : (s.SetAction a).template = { s.template with Action := a } := by
    rw [LiveState.template, LiveState.SetAction]
    exact Heap.get_put_self _ _ _ haddr
  refine ⟨h1, h2, ?_, rfl, rfl, rfl, rfl⟩
  rw [Request.CloneAt, Heap.get_alloc_new]
  exact h2

/-- Witness for C4 on a two-cell heap (template at 0, a prior clone at 1). -/
theorem setAction_affects_only_template_witness :
    ((1 : Nat) < Heap.size sampleLive2.reqHeap ∧
      (1 : Nat) ≠ sampleLive2.liveReqAddr ∧
      sampleLive2.liveReqAddr < Heap.size sampleLive2.reqHeap) ∧
    (Heap.get (sampleLive2.SetAction "new").reqHeap 1 =
        Heap.get sampleLive2.reqHeap 1 ∧
      (sampleLive2.SetAction "new").template =
        { sampleLive2.template with Action := "new" } ∧
      Heap.get (Request.CloneAt (sampleLive2.SetAction "new").reqHeap
          (sampleLive2.SetAction "new").liveReqAddr).1
        (Request.CloneAt (sampleLive2.SetAction "new").reqHeap
          (sampleLive2.SetAction "new").liveReqAddr).2 =
        { sampleLive2.template with Action := "new" } ∧
      (sampleLive2.SetAction "new").liveReqAddr = sampleLive2.liveReqAddr ∧
      (sampleLive2.SetAction "new").certHeap = sampleLive2.certHeap ∧
      (sampleLive2.SetAction "new").streamCert = sampleLive2.streamCert ∧
      (sampleLive2.SetAction "new").videoCenterDns = sampleLive2.videoCenterDns) :=
  ⟨⟨by decide, by decide, by decide⟩,
   setAction_affects_only_template sampleLive2 "new" 1 (by decide) (by decide) (by decide)⟩

/-- Helper: what `cloneRequest` does when the template address is valid:
the controller still points at the same address, both the template cell and
the fresh clone cell hold the template with the new action, and the clone
address is fresh and valid. -/
theorem cloneRequest_spec (s : LiveState) (action : String)
    (haddr : s.liveReqAddr < Heap.size s.reqHeap) :
    (s.cloneRequest action).1.liveReqAddr = s.liveReqAddr ∧
      Heap.get (s.cloneRequest action).1.reqHeap (s.cloneRequest action).2 =
        { s.template with Action := action } ∧
      Heap.get (s.cloneRequest action).1.reqHeap s.liveReqAddr =
        { s.template with Action := action } ∧
      (s.cloneRequest action).2 ≠ s.liveReqAddr ∧
      (s.cloneRequest action).2 < Heap.size (s.cloneRequest action).1.reqHeap := by
  have hput : Heap.get (Heap.put s.reqHeap s.liveReqAddr
      { s.template with Action := action }) s.liveReqAddr =
      { s.template with Action := action } := Heap.get_put_self _ _ _ haddr
  have hsz : Heap.size (Heap.put s.reqHeap s.liveReqAddr
      { s.template with Action := action }) = Heap.size s.reqHeap :=
    Heap.size_put _ _ _
  have haddr1 : s.liveReqAddr < Heap.size (Heap.put s.reqHeap s.liveReqAddr
      { s.template with Action := action }) := by
    rw [hsz]
    exact haddr
  refine ⟨rfl, ?_, ?_, ?_, ?_⟩
  · simp only [LiveState.cloneRequest, LiveState.SetAction, Request.CloneAt]
    rw [Heap.get_alloc_new]
    exact hput
  · simp only [LiveState.cloneRequest, LiveState.SetAction, Request.CloneAt]
    rw [Heap.get_alloc_old _ _ _ haddr1]
    exact hput
  · simp only [LiveState.cloneRequest, LiveState.SetAction, Request.CloneAt]
    exact Heap.alloc_fresh _ _ _ haddr1
  · simp only [LiveState.cloneRequest, LiveState.SetAction, Request.CloneAt]
    simp [Heap.alloc, Heap.size]

/-- Claim C8: `GetStream` returns nil exactly for the empty stream name;
for a non-empty name the stream's `signOn` is set exactly when the
controller holds credentials, and its credentials cell is a freshly
allocated clone of the controller's, not the same pointer. -/
theorem getStream_characterization (s : LiveState) (streamName : String)
    (hwf : ∀ a, s.streamCert = some a → a < Heap.size s.certHeap) :
    ((s.GetStream streamName).2 = none ↔ streamName = "") ∧
      (∀ st, (s.GetStream streamName).2 = some st →
        (st.signOn = s.streamCert.isSome ∧
          (s.streamCert = none → st.streamCert = none) ∧
          (∀ a, s.streamCert = some a →
            ∃ b, st.streamCert = some b ∧ b ≠ a ∧
              Heap.get (s.GetStream streamName).1.certHeap b =
                (Heap.get s.certHeap a).Clone))) := by
  by_cases hname : streamName = ""
  · constructor
    · simp [LiveState.GetStream, hname]
    · intro st hst
      rw [LiveState.GetStream, if_pos hname] at hst
      simp at hst
  · constructor
    · cases hcert : s.streamCert with
      | none => simp [LiveState.GetStream, hname, hcert]
      | some a => simp [LiveState.GetStream, hname, hcert]
    · intro st hst
      cases hcert : s.streamCert with
      | none =>
        rw [LiveState.GetStream, if_neg hname, hcert] at hst
        simp only [Option.some.injEq] at hst
        subst hst
        exact ⟨by simp [hcert], fun _ => rfl, fun a ha => absurd ha (by simp)⟩
      | some a =>
        rw [LiveState.GetStream, if_neg hname, hcert] at hst
        simp only [Option.some.injEq] at hst
        subst hst
        refine ⟨by simp [hcert], by simp [hcert], fun a2 ha2 => ?_⟩
        have haa : a = a2 := by simpa using ha2
        subst haa
        refine ⟨(Heap.alloc s.certHeap (Heap.get s.certHeap a).Clone).2, rfl,
          Heap.alloc_fresh _ _ _ (hwf a hcert), ?_⟩
        rw [LiveState.GetStream, if_neg hname, hcert]
        exact Heap.get_alloc_new _ _

/-- Witness for C8 on a controller holding credentials. -/
theorem getStream_characterization_witness :
    (∀ a, (NewLive "d" "a" (some sampleCert)).streamCert = some a →
      a < Heap.size (NewLive "d" "a" (some sampleCert)).certHeap) ∧
    (((NewLive "d" "a" (some sampleCert)).GetStream "st").2 = none ↔ ("st" : String) = "") ∧
      (∀ st, ((NewLive "d" "a" (some sampleCert)).GetStream "st").2 = some st →
        (st.signOn = (NewLive "d" "a" (some sampleCert)).streamCert.isSome ∧
          ((NewLive "d" "a" (some sampleCert)).streamCert = none → st.streamCert = none) ∧
          (∀ a, (NewLive "d" "a" (some sampleCert)).streamCert = some a →
            ∃ b, st.streamCert = some b ∧ b ≠ a ∧
              Heap.get ((NewLive "d" "a" (some sampleCert)).GetStream "st").1.certHeap b =
                (Heap.get (NewLive "d" "a" (some sampleCert)).certHeap a).Clone))) :=
  ⟨by decide,
   getStream_characterization (NewLive "d" "a" (some sampleCert)) "st" (by decide)⟩

/-- Counterexample to C9 as stated: `StreamsBlockList` does not leave the
controller's template request unchanged — `cloneRequest` sets the shared
template's `Action` to the block-list action, so a template whose action
was `"A"` beforehand is mutated. -/
theorem streamsBlockList_changes_template :
    (sampleLive2.StreamsBlockList (fun _ => none)).state.template ≠
      sampleLive2.template ∧
    (sampleLive2.StreamsBlockList (fun _ => none)).state.template.Action =
      DescribeLiveStreamsBlockListAction ∧
    sampleLive2.template.Action = "A" := by
  refine ⟨?_, by decide, by decide⟩
  decide

/-- Claim C9 as amended: every `StreamsBlockList` call sends exactly one
request whose `AppName` is empty regardless of the configured default, and
the controller's template keeps its default `AppName` (and every field
except `Action`, which is set to the block-list action) — the blanking
happens on the clone only. -/
theorem streamsBlockList_blanks_clone_only (q : QueryOracle) (s : LiveState)
    (haddr : s.liveReqAddr < Heap.size s.reqHeap) :
    (∃ req, (s.StreamsBlockList q).queries = [req] ∧ req.AppName = "" ∧
      (s.StreamsBlockList q).err = q req) ∧
      (s.StreamsBlockList q).state.template =
        { s.template with Action := DescribeLiveStreamsBlockListAction } ∧
      (s.StreamsBlockList q).state.template.AppName = s.template.AppName ∧
      (s.StreamsBlockList q).state.liveReqAddr = s.liveReqAddr := by
  have hcs := cloneRequest_spec s DescribeLiveStreamsBlockListAction haddr
  constructor
  · refine ⟨_, rfl, ?_, rfl⟩
    simp only [LiveState.StreamsBlockList, Heap.setAppNameAt]
    rw [Heap.get_put_self _ _ _ hcs.2.2.2.2]
  · have key : (s.StreamsBlockList q).state.template =
        { s.template with Action := DescribeLiveStreamsBlockListAction } := by
      simp only [LiveState.StreamsBlockList, LiveState.template, Heap.setAppNameAt]
      rw [hcs.1, Heap.get_put_ne _ _ _ _ hcs.2.2.2.1]
      exact hcs.2.2.1
    exact ⟨key, by rw [key], rfl⟩

/-- Witness for the amended C9 on a controller whose template action and
app name are non-empty beforehand. -/
theorem streamsBlockList_blanks_clone_only_witness :
    sampleLive2.liveReqAddr < Heap.size sampleLive2.reqHeap ∧
    ((∃ req, (sampleLive2.StreamsBlockList (fun _ => none)).queries = [req] ∧
      req.AppName = "" ∧
      (sampleLive2.StreamsBlockList (fun _ => none)).err = (fun _ => none) req) ∧
      (sampleLive2.StreamsBlockList (fun _ => none)).state.template =
        { sampleLive2.template with Action := DescribeLiveStreamsBlockListAction } ∧
      (sampleLive2.StreamsBlockList (fun _ => none)).state.template.AppName =
        sampleLive2.template.AppName ∧
      (sampleLive2.StreamsBlockList (fun _ => none)).state.liveReqAddr =
        sampleLive2.liveReqAddr) :=
  ⟨by decide, streamsBlockList_blanks_clone_only (fun _ => none) sampleLive2 (by decide)⟩

/-- Merging the query separator into the `vhost` key literal. -/
theorem append_vhost_lit (x : String) : "?" ++ ("vhost=" ++ x) = "?vhost=" ++ x := by
  rw [← String.append_assoc]
  rfl

/-- Merging the parameter separator into the `auth_key` key literal. -/
theorem append_auth_key_lit (x : String) :
    "&" ++ ("auth_key=" ++ x) = "&auth_key=" ++ x := by
  rw [← String.append_assoc]
  rfl

/-- Claim C6: with no stream credentials the generated URL is exactly
`rtmp://<domain>/<appName>/<streamName>?vhost=<cdn>` — generation cannot
fail, and no `auth_key` query parameter is present. -/
theorem unsigned_url_no_auth_key (domain appName streamName cdn : String)
    (expiry : Nat) :
    rtmpUrl domain appName streamName cdn none expiry =
        "rtmp://" ++ domain ++ "/" ++ appName ++ "/" ++ streamName ++ "?vhost=" ++ cdn ∧
      "auth_key" ∉ (streamUrlParams cdn appName streamName none expiry).map Prod.fst := by
  constructor
  · simp [rtmpUrl, streamUrlParams, renderQuery, String.append_assoc, append_vhost_lit]
  · simp [streamUrlParams]

/-- Claim C7: signed URL generation is a deterministic function of its
inputs — with stream name, domain, app name and credentials fixed, two
runs agree exactly when the expiry timestamps agree, and a different
expiry always changes the auth key. -/
theorem signedUrl_deterministic_expiry_sensitive
    (domain appName streamName cdn : String) (cert : StreamCredentials)
    (e1 e2 : Nat) :
    (rtmpUrl domain appName streamName cdn (some cert) e1 =
        rtmpUrl domain appName streamName cdn (some cert) e2 ↔ e1 = e2) ∧
      (authKey ("/" ++ appName ++ "/" ++ streamName) e1 cert.PrivateKey =
          authKey ("/" ++ appName ++ "/" ++ streamName) e2 cert.PrivateKey ↔
        e1 = e2) := by
  have hform : ∀ e : Nat, rtmpUrl domain appName streamName cdn (some cert) e =
      ("rtmp://" ++ domain ++ "/" ++ appName ++ "/" ++ streamName ++ "?vhost=" ++
          cdn ++ "&auth_key=") ++
        authKey ("/" ++ appName ++ "/" ++ streamName) e cert.PrivateKey := by
    intro e
    simp [rtmpUrl, streamUrlParams, renderQuery, String.append_assoc,
      append_vhost_lit, append_auth_key_lit]
  constructor
  · constructor
    · intro h
      rw [hform e1, hform e2] at h
      exact authKey_expiry_inj _ _ (string_append_left_cancel h)
    · intro h
      rw [h]
  · constructor
    · intro h
      exact authKey_expiry_inj _ _ h
    · intro h
      rw [h]

end AliyunLive
